import Mathlib

/-!
Verification development for the OpenMV sensor utility layer
(`src/omv/common/sensor_utils.c`).

The C code is shallowly embedded: the mutable global `sensor_t sensor` and
the frame-buffer geometry record `MAIN_FB()` become explicit state records
threaded through each operation; capability-table function pointers become
`Option` slots (a present slot carries the status code the chip delegate
would return, since the delegate itself is an external collaborator);
C `int`/`int32_t` values are `ℤ`, and every place where C converts a signed
product to `uint32_t` for a comparison or a store is written with an
explicit `% two32`.  The `float` arithmetic of the auto-crop aspect-ratio
search is modeled with exact fractions (`Frac`, a numerator/denominator
pair of integers): every concrete run relied on below takes the same
branches under exact arithmetic as under IEEE single precision, and this
is noted where it matters.

External collaborators (`sensor_abort`, `framebuffer_update_jpeg_buffer`,
`mp_hal_delay_ms`, GPIO/I2C primitives) have no effect on the modeled
state and are dropped; `framebuffer_get_buffer_size`,
`framebuffer_set_buffers` and the board compile-time switches
(`OMV_CSI_HW_CROP_ENABLE`, `OMV_CSI_DMA_MEMCPY_ENABLE`,
`OMV_CSI_HW_SWAP_ENABLE`) are supplied through an `Env` record.
-/

namespace SensorUtils

/-- Modulus of C `uint32_t` conversions. -/
def two32 : ℤ := 4294967296

/-! Error codes, from the sensor error enumeration (`sensor.h`).  The
numbering is pinned by the in-source `sensor_strerror` table: the
description at index `n` of `sensor_errors` belongs to code `-n`. -/

def SENSOR_ERROR_CTL_FAILED : ℤ := -1
def SENSOR_ERROR_CTL_UNSUPPORTED : ℤ := -2
def SENSOR_ERROR_ISC_UNDETECTED : ℤ := -3
def SENSOR_ERROR_ISC_UNSUPPORTED : ℤ := -4
def SENSOR_ERROR_ISC_INIT_FAILED : ℤ := -5
def SENSOR_ERROR_TIM_INIT_FAILED : ℤ := -6
def SENSOR_ERROR_IO_ERROR : ℤ := -9
def SENSOR_ERROR_INVALID_FRAMESIZE : ℤ := -12
def SENSOR_ERROR_INVALID_PIXFORMAT : ℤ := -13
def SENSOR_ERROR_INVALID_ARGUMENT : ℤ := -16
def SENSOR_ERROR_PIXFORMAT_UNSUPPORTED : ℤ := -17

/-- Pixel formats (`pixformat_t`).  Only identity of the tag matters to the
control flow of `sensor_utils.c`. -/
inductive Pixformat where
  | invalid
  | binary
  | grayscale
  | rgb565
  | bayer
  | yuv422
  | jpeg
deriving DecidableEq

/-- Capability table slots used by the modeled setters (`sensor_t` function
pointers).  `none` is a NULL slot; `some rc` is a present chip delegate
that would report status `rc` when invoked (`rc = 0` is success; for
`read_reg` the value is the datum read, `-1` signalling failure). -/
structure Caps where
  set_pixformat : Option ℤ
  set_framesize : Option ℤ
  set_contrast : Option ℤ
  set_brightness : Option ℤ
  set_saturation : Option ℤ
  set_gainceiling : Option ℤ
  set_quality : Option ℤ
  set_colorbar : Option ℤ
  set_auto_gain : Option ℤ
  set_auto_exposure : Option ℤ
  set_auto_whitebal : Option ℤ
  set_auto_blc : Option ℤ
  set_lens_correction : Option ℤ
  set_special_effect : Option ℤ
  set_hmirror : Option ℤ
  set_vflip : Option ℤ
  read_reg : Option ℤ
  write_reg : Option ℤ
  ioctl : Option ℤ
deriving DecidableEq

/-- The fields of the global `sensor_t` record that the modeled operations
read or write. -/
structure Sensor where
  pixformat : Pixformat
  framesize : ℕ
  framerate : ℤ
  gainceiling : ℤ
  sde : ℤ
  hmirror : Bool
  vflip : Bool
  transpose : Bool
  auto_rotation : Bool
  first_line : Bool
  drop_frame : Bool
  last_frame_ms : ℤ
  last_frame_ms_valid : Bool
  mono_bpp : ℤ
  raw_output : Bool
  rgb_swap : Bool
  yuv_swap : Bool
  disable_delays : Bool
  caps : Caps
deriving DecidableEq

/-- The `MAIN_FB()` geometry record: origin, active width/height, backup
width/height, cached pixel format and derived frame byte size
(`framebuffer_t` fields `x y w h u v`, `pixfmt`, `frame_size`). -/
structure FrameBuffer where
  x : ℤ
  y : ℤ
  w : ℤ
  h : ℤ
  u : ℤ
  v : ℤ
  pixfmt : Pixformat
  frame_size : ℤ
deriving DecidableEq

/-- The full mutable state a control-surface call can touch. -/
structure SensorCtx where
  sensor : Sensor
  fb : FrameBuffer
deriving DecidableEq

/-- Result of one control-surface call: the returned status, the state it
leaves behind, and whether a capability-table delegate was invoked. -/
structure Step where
  ret : ℤ
  ctx : SensorCtx
  delegated : Bool
deriving DecidableEq

/-- External environment: the frame-buffer capacity reported by
`framebuffer_get_buffer_size`, the status returned by
`framebuffer_set_buffers`, and the board compile-time switches. -/
structure Env where
  size : ℤ
  fbSetBuffersRet : ℤ
  hwCrop : Bool
  dmaEnable : Bool
  dmaRet : ℤ
  hwSwap : Bool
deriving DecidableEq

/-- The static `resolution` table (index = `framesize_t`; index 0 is the
invalid sentinel). -/
def resolution : List (ℤ × ℤ) :=
  [(0, 0),
   (88, 72), (176, 144), (352, 288), (88, 60), (176, 120), (352, 240),
   (40, 30), (80, 60), (160, 120), (320, 240), (640, 480),
   (30, 20), (60, 40), (120, 80), (240, 160), (480, 320),
   (64, 32), (64, 64), (128, 64), (128, 128),
   (160, 160), (320, 320),
   (128, 160), (128, 160), (720, 480), (752, 480), (800, 600),
   (1024, 768), (1280, 768), (1280, 1024), (1280, 960), (1600, 1200),
   (1280, 720), (1920, 1080), (2560, 1440), (2048, 1536), (2560, 1600),
   (2592, 1944)]

/-- C array read `resolution[framesize][·]`; the C code never indexes out
of range, so the default is immaterial. -/
def resolutionAt (framesize : ℕ) : ℤ × ℤ := resolution.getD framesize (0, 0)

/-- C truthiness of `(bool) enable` for an `int` argument. -/
def boolOfInt (enable : ℤ) : Bool := enable ≠ 0

/-! Exact-fraction stand-in for the C `float` values of the auto-crop
aspect-ratio search.  `den` is positive for every fraction built below.
The concrete runs used in the theorems take the same branches under this
exact arithmetic as under IEEE single precision. -/

/-- A fraction `num / den` of integers. -/
structure Frac where
  num : ℤ
  den : ℤ
deriving DecidableEq

/-- Fraction comparison (valid for positive denominators). -/
def fracLe (a b : Frac) : Prop := a.num * b.den ≤ b.num * a.den

instance (a b : Frac) : Decidable (fracLe a b) := by
  unfold fracLe; infer_instance

/-- `fast_roundf`: round to nearest integer, `⌊q + 1/2⌋` (exact ties go
up; the hardware rounds exact ties to even, and no branch below meets an
exact tie). -/
def fracRound (a : Frac) : ℤ := (2 * a.num + a.den) / (2 * a.den)

/-- `fast_fabsf (r - fast_roundf r)`: distance from `a` to its rounding. -/
def fracErr (a : Frac) : Frac :=
  let n := a.num - fracRound a * a.den
  ⟨if n < 0 then -n else n, a.den⟩

/-- `r += aspect_ratio` where both values share denominator `den`. -/
def fracAddNum (a : Frac) (m : ℤ) : Frac := ⟨a.num + m, a.den⟩

/-- `FLT_MAX` (exactly `2^128 - 2^104`). -/
def fltMax : Frac := ⟨340282346638528859811704183484516925440, 1⟩

/-- The literal `0.01f` threshold (exactly 1/100; the nearest `float` to
0.01 differs from it by less than 2e-10, which no branch below crosses). -/
def centErr : Frac := ⟨1, 100⟩

/-! Operations of the control surface, in source order. -/

/-- `sensor_get_cropped` (sensor_utils.c:722). -/
def sensor_get_cropped (c : SensorCtx) : Bool :=
  if c.sensor.framesize ≠ 0 then
    c.fb.x ≠ 0 ∨ c.fb.y ≠ 0 ∨
    c.fb.u ≠ (resolutionAt c.sensor.framesize).1 ∨
    c.fb.v ≠ (resolutionAt c.sensor.framesize).2
  else false

/-- `sensor_get_src_bpp` (sensor_utils.c:732). -/
def sensor_get_src_bpp (s : Sensor) : ℤ :=
  if s.raw_output then 1
  else match s.pixformat with
    | .bayer => 1
    | .jpeg => 1
    | .rgb565 => 2
    | .yuv422 => 2
    | .grayscale => s.mono_bpp
    | _ => 0

/-- `sensor_get_dst_bpp` (sensor_utils.c:750). -/
def sensor_get_dst_bpp (s : Sensor) : ℤ :=
  match s.pixformat with
    | .grayscale => 1
    | .bayer => 1
    | .rgb565 => 2
    | .yuv422 => 2
    | _ => 0

/-- `sensor_set_framebuffers` (sensor_utils.c:1117).  `sensor_abort` and
`framebuffer_update_jpeg_buffer` touch no modeled state; the final
`framebuffer_set_buffers(count)` is the external collaborator whose status
`env.fbSetBuffersRet` is returned.  The `count` argument only flows to
that collaborator. -/
def sensor_set_framebuffers (env : Env) (_count : ℤ) (c : SensorCtx) : Step :=
  if c.sensor.pixformat = .invalid then ⟨SENSOR_ERROR_INVALID_PIXFORMAT, c, false⟩
  else if c.sensor.framesize = 0 then ⟨SENSOR_ERROR_INVALID_FRAMESIZE, c, false⟩
  else
    let bpp := max (sensor_get_src_bpp c.sensor) (sensor_get_dst_bpp c.sensor)
    let fb :=
      if env.hwCrop then
        { c.fb with frame_size := (c.fb.u * c.fb.v * bpp) % two32 }
      else
        { c.fb with frame_size :=
            ((resolutionAt c.sensor.framesize).1 *
             (resolutionAt c.sensor.framesize).2 * bpp) % two32 }
    ⟨env.fbSetBuffersRet, ⟨c.sensor, fb⟩, false⟩

/-- `sensor_set_pixformat` (sensor_utils.c:579).  On the success path the
100 ms settle delay and the `SENSOR_CONFIG_PIXFORMAT` reconfiguration are
the weak `sensor_config`, which returns 0. -/
def sensor_set_pixformat (env : Env) (pixformat : Pixformat) (c : SensorCtx) : Step :=
  if c.sensor.pixformat = pixformat then ⟨0, c, false⟩
  else if c.sensor.pixformat = .bayer ∧
          (pixformat = .rgb565 ∨ pixformat = .yuv422) ∧
          (c.fb.u * c.fb.v * 2) % two32 > env.size ∧
          (c.fb.u * c.fb.v * 1) % two32 ≤ env.size then
    ⟨0, c, false⟩
  else if (pixformat = .yuv422 ∧ (c.sensor.transpose = true ∨ c.sensor.auto_rotation = true)) ∨
          (pixformat = .jpeg ∧ (sensor_get_cropped c = true ∨
             c.sensor.transpose = true ∨ c.sensor.auto_rotation = true)) then
    ⟨SENSOR_ERROR_PIXFORMAT_UNSUPPORTED, c, false⟩
  else
    match c.sensor.caps.set_pixformat with
    | none => ⟨SENSOR_ERROR_CTL_UNSUPPORTED, c, false⟩
    | some rc =>
      if rc ≠ 0 then ⟨SENSOR_ERROR_CTL_FAILED, c, true⟩
      else
        let s := { c.sensor with pixformat := pixformat }
        let fb := { c.fb with pixfmt := .invalid }
        let st := sensor_set_framebuffers env (-1) ⟨s, fb⟩
        ⟨0, st.ctx, true⟩

/-- `sensor_set_framesize` (sensor_utils.c:635). -/
def sensor_set_framesize (env : Env) (framesize : ℕ) (c : SensorCtx) : Step :=
  if c.sensor.framesize = framesize then ⟨0, c, false⟩
  else
    match c.sensor.caps.set_framesize with
    | none => ⟨SENSOR_ERROR_CTL_UNSUPPORTED, c, false⟩
    | some rc =>
      if rc ≠ 0 then ⟨SENSOR_ERROR_CTL_FAILED, c, true⟩
      else
        let s := { c.sensor with framesize := framesize }
        let fb := { c.fb with
                    x := 0, y := 0,
                    w := (resolutionAt framesize).1, h := (resolutionAt framesize).2,
                    u := (resolutionAt framesize).1, v := (resolutionAt framesize).2,
                    pixfmt := .invalid }
        let st := sensor_set_framebuffers env (-1) ⟨s, fb⟩
        ⟨0, st.ctx, true⟩

/-- `sensor_set_framerate` (sensor_utils.c:682). -/
def sensor_set_framerate (framerate : ℤ) (c : SensorCtx) : Step :=
  if c.sensor.framerate = framerate then ⟨0, c, false⟩
  else if framerate < 0 then ⟨SENSOR_ERROR_INVALID_ARGUMENT, c, false⟩
  else ⟨0, ⟨{ c.sensor with framerate := framerate }, c.fb⟩, false⟩

/-- `IM_DIV(1000, framerate)` as a `uint32_t`: the per-frame interval of
the software throttle. -/
def frameIntervalMs (s : Sensor) : ℤ :=
  (if s.framerate ≠ 0 then Int.tdiv 1000 s.framerate else 0) % two32

/-- `sensor_throttle_framerate` (sensor_utils.c:703).  `tick` is the
`mp_hal_ticks_ms()` reading, a `uint32_t`; all differences and sums are
reduced `% two32` exactly where the C unsigned arithmetic wraps. -/
def sensor_throttle_framerate (tick : ℤ) (s : Sensor) : Sensor :=
  if s.first_line = false then
    if s.last_frame_ms_valid = true ∧
       (tick - s.last_frame_ms) % two32 < frameIntervalMs s then
      { s with first_line := true, drop_frame := true }
    else if s.last_frame_ms_valid = true then
      { s with first_line := true,
               last_frame_ms := (s.last_frame_ms + frameIntervalMs s) % two32 }
    else
      { s with first_line := true, last_frame_ms := tick, last_frame_ms_valid := true }
  else s

/-- `sensor_set_windowing` (sensor_utils.c:763). -/
def sensor_set_windowing (env : Env) (x y w h : ℤ) (c : SensorCtx) : Step :=
  if c.fb.x = x ∧ c.fb.y = y ∧ c.fb.u = w ∧ c.fb.v = h then ⟨0, c, false⟩
  else if c.sensor.pixformat = .jpeg then ⟨SENSOR_ERROR_PIXFORMAT_UNSUPPORTED, c, false⟩
  else
    let fb := { c.fb with
                x := x, y := y, w := w, h := h, u := w, v := h,
                pixfmt := .invalid }
    let st := sensor_set_framebuffers env (-1) ⟨c.sensor, fb⟩
    ⟨0, st.ctx, false⟩

/-- `sensor_set_contrast` (sensor_utils.c:799). -/
def sensor_set_contrast (_level : ℤ) (c : SensorCtx) : Step :=
  match c.sensor.caps.set_contrast with
  | none => ⟨SENSOR_ERROR_CTL_UNSUPPORTED, c, false⟩
  | some rc => if rc ≠ 0 then ⟨SENSOR_ERROR_CTL_FAILED, c, true⟩ else ⟨0, c, true⟩

/-- `sensor_set_brightness` (sensor_utils.c:813). -/
def sensor_set_brightness (_level : ℤ) (c : SensorCtx) : Step :=
  match c.sensor.caps.set_brightness with
  | none => ⟨SENSOR_ERROR_CTL_UNSUPPORTED, c, false⟩
  | some rc => if rc ≠ 0 then ⟨SENSOR_ERROR_CTL_FAILED, c, true⟩ else ⟨0, c, true⟩

/-- `sensor_set_saturation` (sensor_utils.c:827). -/
def sensor_set_saturation (_level : ℤ) (c : SensorCtx) : Step :=
  match c.sensor.caps.set_saturation with
  | none => ⟨SENSOR_ERROR_CTL_UNSUPPORTED, c, false⟩
  | some rc => if rc ≠ 0 then ⟨SENSOR_ERROR_CTL_FAILED, c, true⟩ else ⟨0, c, true⟩

/-- `sensor_set_gainceiling` (sensor_utils.c:841). -/
def sensor_set_gainceiling (gainceiling : ℤ) (c : SensorCtx) : Step :=
  if c.sensor.gainceiling = gainceiling then ⟨0, c, false⟩
  else
    match c.sensor.caps.set_gainceiling with
    | none => ⟨SENSOR_ERROR_CTL_UNSUPPORTED, c, false⟩
    | some rc =>
      if rc ≠ 0 then ⟨SENSOR_ERROR_CTL_FAILED, c, true⟩
      else ⟨0, ⟨{ c.sensor with gainceiling := gainceiling }, c.fb⟩, true⟩

/-- `sensor_set_quality` (sensor_utils.c:863). -/
def sensor_set_quality (_qs : ℤ) (c : SensorCtx) : Step :=
  match c.sensor.caps.set_quality with
  | none => ⟨SENSOR_ERROR_CTL_UNSUPPORTED, c, false⟩
  | some rc => if rc ≠ 0 then ⟨SENSOR_ERROR_CTL_FAILED, c, true⟩ else ⟨0, c, true⟩

/-- `sensor_set_colorbar` (sensor_utils.c:877). -/
def sensor_set_colorbar (_enable : ℤ) (c : SensorCtx) : Step :=
  match c.sensor.caps.set_colorbar with
  | none => ⟨SENSOR_ERROR_CTL_UNSUPPORTED, c, false⟩
  | some rc => if rc ≠ 0 then ⟨SENSOR_ERROR_CTL_FAILED, c, true⟩ else ⟨0, c, true⟩

/-- `sensor_set_auto_gain` (sensor_utils.c:891).  The two `float`
arguments are opaque pass-through values for the delegate. -/
def sensor_set_auto_gain (_enable : ℤ) (_gain_db _gain_db_ceiling : Frac) (c : SensorCtx) : Step :=
  match c.sensor.caps.set_auto_gain with
  | none => ⟨SENSOR_ERROR_CTL_UNSUPPORTED, c, false⟩
  | some rc => if rc ≠ 0 then ⟨SENSOR_ERROR_CTL_FAILED, c, true⟩ else ⟨0, c, true⟩

/-- `sensor_set_auto_exposure` (sensor_utils.c:919). -/
def sensor_set_auto_exposure (_enable _exposure_us : ℤ) (c : SensorCtx) : Step :=
  match c.sensor.caps.set_auto_exposure with
  | none => ⟨SENSOR_ERROR_CTL_UNSUPPORTED, c, false⟩
  | some rc => if rc ≠ 0 then ⟨SENSOR_ERROR_CTL_FAILED, c, true⟩ else ⟨0, c, true⟩

/-- `sensor_set_auto_whitebal` (sensor_utils.c:947); `float` gains are
opaque pass-through values. -/
def sensor_set_auto_whitebal (_enable : ℤ) (_r _g _b : Frac) (c : SensorCtx) : Step :=
  match c.sensor.caps.set_auto_whitebal with
  | none => ⟨SENSOR_ERROR_CTL_UNSUPPORTED, c, false⟩
  | some rc => if rc ≠ 0 then ⟨SENSOR_ERROR_CTL_FAILED, c, true⟩ else ⟨0, c, true⟩

/-- `sensor_set_auto_blc` (sensor_utils.c:975); the register list is an
opaque pass-through value. -/
def sensor_set_auto_blc (_enable : ℤ) (_regs : List ℤ) (c : SensorCtx) : Step :=
  match c.sensor.caps.set_auto_blc with
  | none => ⟨SENSOR_ERROR_CTL_UNSUPPORTED, c, false⟩
  | some rc => if rc ≠ 0 then ⟨SENSOR_ERROR_CTL_FAILED, c, true⟩ else ⟨0, c, true⟩

/-- `sensor_set_lens_correction` (sensor_utils.c:1165). -/
def sensor_set_lens_correction (_enable _radi _coef : ℤ) (c : SensorCtx) : Step :=
  match c.sensor.caps.set_lens_correction with
  | none => ⟨SENSOR_ERROR_CTL_UNSUPPORTED, c, false⟩
  | some rc => if rc ≠ 0 then ⟨SENSOR_ERROR_CTL_FAILED, c, true⟩ else ⟨0, c, true⟩

/-- `sensor_set_special_effect` (sensor_utils.c:1143). -/
def sensor_set_special_effect (sde : ℤ) (c : SensorCtx) : Step :=
  if c.sensor.sde = sde then ⟨0, c, false⟩
  else
    match c.sensor.caps.set_special_effect with
    | none => ⟨SENSOR_ERROR_CTL_UNSUPPORTED, c, false⟩
    | some rc =>
      if rc ≠ 0 then ⟨SENSOR_ERROR_CTL_FAILED, c, true⟩
      else ⟨0, ⟨{ c.sensor with sde := sde }, c.fb⟩, true⟩

/-- `sensor_set_hmirror` (sensor_utils.c:1003). -/
def sensor_set_hmirror (enable : ℤ) (c : SensorCtx) : Step :=
  if c.sensor.hmirror = boolOfInt enable then ⟨0, c, false⟩
  else
    match c.sensor.caps.set_hmirror with
    | none => ⟨SENSOR_ERROR_CTL_UNSUPPORTED, c, false⟩
    | some rc =>
      if rc ≠ 0 then ⟨SENSOR_ERROR_CTL_FAILED, c, true⟩
      else ⟨0, ⟨{ c.sensor with hmirror := boolOfInt enable }, c.fb⟩, true⟩

/-- `sensor_set_vflip` (sensor_utils.c:1037). -/
def sensor_set_vflip (enable : ℤ) (c : SensorCtx) : Step :=
  if c.sensor.vflip = boolOfInt enable then ⟨0, c, false⟩
  else
    match c.sensor.caps.set_vflip with
    | none => ⟨SENSOR_ERROR_CTL_UNSUPPORTED, c, false⟩
    | some rc =>
      if rc ≠ 0 then ⟨SENSOR_ERROR_CTL_FAILED, c, true⟩
      else ⟨0, ⟨{ c.sensor with vflip := boolOfInt enable }, c.fb⟩, true⟩

/-- `sensor_set_transpose` (sensor_utils.c:1071). -/
def sensor_set_transpose (enable : Bool) (c : SensorCtx) : Step :=
  if c.sensor.transpose = enable then ⟨0, c, false⟩
  else if c.sensor.pixformat = .yuv422 ∨ c.sensor.pixformat = .jpeg then
    ⟨SENSOR_ERROR_PIXFORMAT_UNSUPPORTED, c, false⟩
  else ⟨0, ⟨{ c.sensor with transpose := enable }, c.fb⟩, false⟩

/-- `sensor_set_auto_rotation` (sensor_utils.c:1094). -/
def sensor_set_auto_rotation (enable : Bool) (c : SensorCtx) : Step :=
  if c.sensor.auto_rotation = enable then ⟨0, c, false⟩
  else if c.sensor.pixformat = .yuv422 ∨ c.sensor.pixformat = .jpeg then
    ⟨SENSOR_ERROR_PIXFORMAT_UNSUPPORTED, c, false⟩
  else ⟨0, ⟨{ c.sensor with auto_rotation := enable }, c.fb⟩, false⟩

/-- `sensor_read_reg` (sensor_utils.c:549).  A present delegate slot
carries the value it reports (`-1` is the failure marker). -/
def sensor_read_reg (_reg_addr : ℤ) (c : SensorCtx) : Step :=
  match c.sensor.caps.read_reg with
  | none => ⟨SENSOR_ERROR_CTL_UNSUPPORTED, c, false⟩
  | some rc => if rc = -1 then ⟨SENSOR_ERROR_IO_ERROR, c, true⟩ else ⟨rc, c, true⟩

/-- `sensor_write_reg` (sensor_utils.c:565). -/
def sensor_write_reg (_reg_addr _reg_data : ℤ) (c : SensorCtx) : Step :=
  match c.sensor.caps.write_reg with
  | none => ⟨SENSOR_ERROR_CTL_UNSUPPORTED, c, false⟩
  | some rc => if rc = -1 then ⟨SENSOR_ERROR_IO_ERROR, c, true⟩ else ⟨0, c, true⟩

/-- `sensor_ioctl` (sensor_utils.c:1179); the vararg payload is opaque. -/
def sensor_ioctl (_request : ℤ) (c : SensorCtx) : Step :=
  match c.sensor.caps.ioctl with
  | none => ⟨SENSOR_ERROR_CTL_UNSUPPORTED, c, false⟩
  | some rc => if rc ≠ 0 then ⟨SENSOR_ERROR_CTL_FAILED, c, true⟩ else ⟨0, c, true⟩

/-! Geometry engine: `sensor_auto_crop_framebuffer` (sensor_utils.c:1222),
split into the same stages as the C function. -/

/-- Guard of the crop `while` loop (sensor_utils.c:1289): the window still
overflows capacity (C compares the signed product converted to
`uint32_t`), or a dimension is odd (`u % 2` as a C truth value is exactly
oddness, for negative values too). -/
def cropGuard (size bpp u v : ℤ) : Prop :=
  (u * v * bpp) % two32 > size ∨ u % 2 ≠ 0 ∨ v % 2 ≠ 0

instance (size bpp u v : ℤ) : Decidable (cropGuard size bpp u v) := by
  unfold cropGuard; infer_instance

/-- The crop `while` loop (sensor_utils.c:1289-1292), fuel-indexed:
`none` means the loop has not exited within `fuel` iterations. -/
def cropLoop (size bpp u_sub v_sub : ℤ) : ℕ → ℤ → ℤ → Option (ℤ × ℤ)
  | 0, u, v => if cropGuard size bpp u v then none else some (u, v)
  | n + 1, u, v =>
    if cropGuard size bpp u v then cropLoop size bpp u_sub v_sub n (u - u_sub) (v - v_sub)
    else some (u, v)

/-- The aspect-ratio search loop (sensor_utils.c:1260-1275): `i` counts
down from 100; `r` and the running error are exact stand-ins for the C
`float` values; `cnt` is the C variable `c`. -/
def ratioSearch (aspect : Frac) : ℕ → Frac → ℤ → Frac → Frac → ℤ → Frac × ℤ
  | 0, _, _, _, best_r, best_c => (best_r, best_c)
  | i + 1, r, cnt, best_err, best_r, best_c =>
    let err := fracErr r
    if fracLe err best_err then
      if fracLe err centErr then (r, cnt)
      else ratioSearch aspect i (fracAddNum r aspect.num) (cnt + 1) err r cnt
    else
      if fracLe best_err centErr then (best_r, best_c)
      else ratioSearch aspect i (fracAddNum r aspect.num) (cnt + 1) best_err best_r best_c

/-- Aspect-ratio setup and subtrahend selection
(sensor_utils.c:1252-1286): returns `(u_sub, v_sub)`. -/
def cropSubs (window_w window_h : ℤ) : ℤ × ℤ :=
  let aspect : Frac := ⟨max window_w window_h, min window_w window_h⟩
  let rc := ratioSearch aspect 100 aspect 1 fltMax aspect 1
  if window_w > window_h then (fracRound rc.1, rc.2) else (rc.2, fracRound rc.1)

/-- Re-centering of the cropped window (sensor_utils.c:1295-1303): `fb.u`
and `fb.v` still hold the pre-loop window (`window_w`, `window_h`). -/
def cropCenter (fb : FrameBuffer) (u v : ℤ) : FrameBuffer :=
  let fb1 := { fb with
               u := u, v := v,
               x := fb.x + (fb.u - u) / 2, y := fb.y + (fb.v - v) / 2 }
  let fb2 := if fb1.x % 2 ≠ 0 then { fb1 with x := fb1.x - 1 } else fb1
  if fb2.y % 2 ≠ 0 then { fb2 with y := fb2.y - 1 } else fb2

/-- The shrink stage (sensor_utils.c:1247-1307): subtrahend search, crop
loop, re-centering, and the final `sensor_set_framebuffers(-1)` whose
status is discarded. -/
def autoCropShrink (env : Env) (fuel : ℕ) (c : SensorCtx) (bpp : ℤ) :
    Option (ℤ × SensorCtx) :=
  match cropLoop env.size bpp (cropSubs c.fb.u c.fb.v).1 (cropSubs c.fb.u c.fb.v).2
      fuel c.fb.u c.fb.v with
  | none => none
  | some (u, v) =>
    some (0, (sensor_set_framebuffers env (-1) ⟨c.sensor, cropCenter c.fb u v⟩).ctx)

/-- The stage after the BAYER downgrade attempt (sensor_utils.c:1242):
`bpp` is 1 from here on. -/
def autoCropBayer (env : Env) (fuel : ℕ) (c : SensorCtx) : Option (ℤ × SensorCtx) :=
  if (c.fb.u * c.fb.v) % two32 ≤ env.size then some (0, c)
  else autoCropShrink env fuel c 1

/-- `sensor_auto_crop_framebuffer` (sensor_utils.c:1222).  `none` models
a call whose crop loop has not exited within `fuel` iterations. -/
def sensor_auto_crop_framebuffer (env : Env) (fuel : ℕ) (c : SensorCtx) :
    Option (ℤ × SensorCtx) :=
  if sensor_get_dst_bpp c.sensor = 0 then some (0, c)
  else if (c.fb.u * c.fb.v * sensor_get_dst_bpp c.sensor) % two32 ≤ env.size then
    some (0, c)
  else if c.sensor.pixformat = .rgb565 ∨ c.sensor.pixformat = .yuv422 then
    autoCropBayer env fuel (sensor_set_pixformat env .bayer c).ctx
  else autoCropShrink env fuel c (sensor_get_dst_bpp c.sensor)

/-! Line pipeline: `sensor_copy_line` (sensor_utils.c:1322). -/

/-- The copy a `sensor_copy_line` call performs, recording the software
path taken (with the element count and, for transposed copies, the write
stride `MAIN_FB()->v`) or the accepted hardware offload. -/
inductive LineCopy where
  | dmaOffload (elemSize : ℤ) (transposed : Bool)
  | bytes (n : ℤ)
  | bytesT (n stride : ℤ)
  | lumaBytes (n : ℤ)
  | lumaBytesT (n stride : ℤ)
  | wordsRev (n : ℤ)
  | wordsRevT (n stride : ℤ)
  | wordsT (n stride : ℤ)
  | nothing
deriving DecidableEq

/-- `sensor_copy_line` (sensor_utils.c:1322): selects the per-scanline
copy purely from the active pixel format, attempting the hardware offload
first when compiled in (`env.dmaEnable`; `env.dmaRet = 0` means the
offload accepted the request). -/
def sensor_copy_line (env : Env) (c : SensorCtx) : ℤ × LineCopy :=
  match c.sensor.pixformat with
  | .bayer =>
    if env.dmaEnable = true ∧ env.dmaRet = 0 then (0, .dmaOffload 1 c.sensor.transpose)
    else if c.sensor.transpose = false then (0, .bytes c.fb.u)
    else (0, .bytesT c.fb.u c.fb.v)
  | .grayscale =>
    if env.dmaEnable = true ∧ env.dmaRet = 0 then (0, .dmaOffload 1 c.sensor.transpose)
    else if c.sensor.mono_bpp = 1 then
      if c.sensor.transpose = false then (0, .bytes c.fb.u)
      else (0, .bytesT c.fb.u c.fb.v)
    else
      if c.sensor.transpose = false then (0, .lumaBytes c.fb.u)
      else (0, .lumaBytesT c.fb.u c.fb.v)
  | .rgb565 =>
    if env.dmaEnable = true ∧ env.dmaRet = 0 then (0, .dmaOffload 2 c.sensor.transpose)
    else if env.hwSwap = false ∧ c.sensor.rgb_swap = true then
      if c.sensor.transpose = false then (0, .wordsRev c.fb.u)
      else (0, .wordsRevT c.fb.u c.fb.v)
    else
      if c.sensor.transpose = false then (0, .bytes (c.fb.u * 2))
      else (0, .wordsT c.fb.u c.fb.v)
  | .yuv422 =>
    if env.dmaEnable = true ∧ env.dmaRet = 0 then (0, .dmaOffload 2 c.sensor.transpose)
    else if env.hwSwap = false ∧ c.sensor.yuv_swap = true then
      if c.sensor.transpose = false then (0, .wordsRev c.fb.u)
      else (0, .wordsRevT c.fb.u c.fb.v)
    else
      if c.sensor.transpose = false then (0, .bytes (c.fb.u * 2))
      else (0, .wordsT c.fb.u c.fb.v)
  | _ => (0, .nothing)

/-! Error catalog: `sensor_strerror` (sensor_utils.c:1399). -/

/-- The static description table (21 entries, indices 0 through 20). -/
def sensor_errors : List String :=
  ["No error.",
   "Sensor control failed.",
   "The requested operation is not supported by the image sensor.",
   "Failed to detect the image sensor or image sensor is detached.",
   "The detected image sensor is not supported.",
   "Failed to initialize the image sensor.",
   "Failed to initialize the external clock.",
   "Failed to initialize the CSI DMA.",
   "Failed to initialize the CSI interface.",
   "An low level I/O error has occurred.",
   "Frame capture has failed.",
   "Frame capture has timed out.",
   "Frame size is not supported or is not set.",
   "Pixel format is not supported or is not set.",
   "Window is not supported or is not set.",
   "Frame rate is not supported or is not set.",
   "An invalid argument is used.",
   "The requested operation is not supported on the current pixel format.",
   "Frame buffer error.",
   "Frame buffer overflow, try reducing the frame size.",
   "JPEG frame buffer overflow."]

/-- `sensor_strerror` (sensor_utils.c:1399).  The C guard is
`error > sizeof(sensor_errors)/sizeof(sensor_errors[0])`, i.e.
`error > 21` for the 21-entry table, and the else branch reads
`sensor_errors[error]`; the out-of-range read that this permits at
magnitude 21 is modeled by the `none` of `List.get?`. -/
def sensor_strerror (error : ℤ) : Option String :=
  let e := if error < 0 then error * -1 else error
  if e > 21 then some "Unknown error."
  else sensor_errors[e.toNat]?

/-! Concrete states used by the claim theorems. -/

/-- A capability table with every slot absent. -/
def capsNone : Caps :=
  ⟨none, none, none, none, none, none, none, none, none, none,
   none, none, none, none, none, none, none, none, none⟩

/-- A baseline sensor state: GRAYSCALE at QVGA, all flags clear, no
capabilities. -/
def sensorBase : Sensor :=
  { pixformat := .grayscale, framesize := 10, framerate := 0,
    gainceiling := 0, sde := 0,
    hmirror := false, vflip := false, transpose := false, auto_rotation := false,
    first_line := false, drop_frame := false,
    last_frame_ms := 0, last_frame_ms_valid := false,
    mono_bpp := 1, raw_output := false, rgb_swap := false, yuv_swap := false,
    disable_delays := true, caps := capsNone }

/-- A baseline geometry record. -/
def fbBase : FrameBuffer :=
  { x := 0, y := 0, w := 320, h := 240, u := 320, v := 240,
    pixfmt := .grayscale, frame_size := 0 }

/-- Environment for the non-terminating auto-crop run: capacity 100
bytes, hardware cropping available. -/
def envOdd : Env :=
  { size := 100, fbSetBuffersRet := 0, hwCrop := true,
    dmaEnable := false, dmaRet := 0, hwSwap := true }

/-- State for the non-terminating auto-crop run: a 199 x 100 window (as
left by `sensor_set_windowing(0, 0, 199, 100)`) in GRAYSCALE. -/
def ctxOdd : SensorCtx :=
  ⟨sensorBase,
   { x := 0, y := 0, w := 199, h := 100, u := 199, v := 100,
     pixfmt := .grayscale, frame_size := 0 }⟩

/-- Environment for the idempotence witness: capacity 1000 bytes. -/
def envIdem : Env :=
  { size := 1000, fbSetBuffersRet := 0, hwCrop := true,
    dmaEnable := false, dmaRet := 0, hwSwap := true }

/-- State for the idempotence witness: RGB565 at a 40 x 30 window
(framesize 7 = QQQQVGA), no `set_pixformat` capability, so the BAYER
downgrade cannot commit. -/
def ctxIdem : SensorCtx :=
  ⟨{ sensorBase with pixformat := .rgb565, framesize := 7 },
   { x := 0, y := 0, w := 40, h := 30, u := 40, v := 30,
     pixfmt := .rgb565, frame_size := 0 }⟩

/-- The state the first auto-crop run on `ctxIdem` terminates in: the
window cropped to 32 x 24 and re-centered at (4, 2). -/
def ctxIdemOut : SensorCtx :=
  ⟨{ sensorBase with pixformat := .rgb565, framesize := 7 },
   { x := 4, y := 2, w := 40, h := 30, u := 32, v := 24,
     pixfmt := .rgb565, frame_size := 1536 }⟩

/-- The baseline state as a full context. -/
def ctxBase : SensorCtx := ⟨sensorBase, fbBase⟩

/-- A BAYER state whose 20 x 40 window fits capacity 1000 at 1 byte per
pixel (800 bytes) but not at 2 (1600 bytes). -/
def ctxBayerTight : SensorCtx :=
  ⟨{ sensorBase with pixformat := .bayer },
   { fbBase with u := 20, v := 40 }⟩

/-- A YUV422 state with the transpose flag already set. -/
def ctxYuvTransposed : SensorCtx :=
  ⟨{ sensorBase with pixformat := .yuv422, transpose := true }, fbBase⟩

/-- A YUV422 state with the transpose flag clear. -/
def ctxYuv : SensorCtx := ⟨{ sensorBase with pixformat := .yuv422 }, fbBase⟩

/-- A JPEG state. -/
def ctxJpeg : SensorCtx := ⟨{ sensorBase with pixformat := .jpeg }, fbBase⟩

/-- Sensor state for the throttle trace: software frame-rate control at
10 fps (interval 100 ms). -/
def sensorThrottle : Sensor := { sensorBase with framerate := 10 }

/-- The throttle state after an accepted frame at time 0: baseline 0,
valid. -/
def sensorThrottleValid : Sensor := { sensorThrottle with last_frame_ms_valid := true }

/-- Drives `sensor_throttle_framerate` over a stream of frame-start
times: before each frame the capture pipeline (outside this file) has
cleared `first_line` and `drop_frame`; the trace records each frame's
drop flag and the baseline `last_frame_ms` it leaves. -/
def throttleTrace (s : Sensor) : List ℤ → List (Bool × ℤ)
  | [] => []
  | t :: ts =>
    let s1 := sensor_throttle_framerate t { s with first_line := false, drop_frame := false }
    (s1.drop_frame, s1.last_frame_ms) :: throttleTrace s1 ts

/-! Theorems. -/

/-- C2 (code bug): `sensor_strerror` guards with `error > 21` for a
21-entry table, so magnitude 21 reads one past the table instead of
returning "Unknown error." (`none` marks the out-of-range read); all
catalogued magnitudes 0 through 20 return their description and
magnitudes above 21 return "Unknown error.". -/
theorem strerror_off_by_one :
    sensor_strerror 21 = none ∧ sensor_strerror (-21) = none ∧
    sensor_strerror 0 = some "No error." ∧
    sensor_strerror 20 = some "JPEG frame buffer overflow." ∧
    sensor_strerror (-17) =
      some "The requested operation is not supported on the current pixel format." ∧
    sensor_strerror 22 = some "Unknown error." ∧
    sensor_strerror (-1000000) = some "Unknown error." := by
  decide

/-- C4: setting the pixel format or the frame size to its currently
active value returns success, invokes no capability delegate, and leaves
the whole sensor state and frame geometry unchanged. -/
theorem set_unchanged_noop (env : Env) (pf : Pixformat) (fs : ℕ) (c : SensorCtx) :
    (c.sensor.pixformat = pf → sensor_set_pixformat env pf c = ⟨0, c, false⟩) ∧
    (c.sensor.framesize = fs → sensor_set_framesize env fs c = ⟨0, c, false⟩) := by
  constructor
  · intro h
    simp [sensor_set_pixformat, h]
  · intro h
    simp [sensor_set_framesize, h]

/-- Witness for C4 at the baseline GRAYSCALE/QVGA state. -/
theorem set_unchanged_noop_witness :
    sensor_set_pixformat envIdem .grayscale ctxBase = ⟨0, ctxBase, false⟩ ∧
    sensor_set_framesize envIdem 10 ctxBase = ⟨0, ctxBase, false⟩ :=
  ⟨(set_unchanged_noop envIdem .grayscale 10 ctxBase).1 rfl,
   (set_unchanged_noop envIdem .grayscale 10 ctxBase).2 rfl⟩

/-- C5: with the active format BAYER (1 byte per pixel), a request for a
2-byte color format whose geometry would overflow the buffer while the
1-byte geometry still fits returns success and keeps the degraded format:
no delegate call, no state change. -/
theorem set_pixformat_keeps_degraded_bayer (env : Env) (pf : Pixformat) (c : SensorCtx)
    (hb : c.sensor.pixformat = .bayer)
    (hpf : pf = .rgb565 ∨ pf = .yuv422)
    (h2 : (c.fb.u * c.fb.v * 2) % two32 > env.size)
    (h1 : (c.fb.u * c.fb.v * 1) % two32 ≤ env.size) :
    sensor_set_pixformat env pf c = ⟨0, c, false⟩ := by
  have hne : ¬(c.sensor.pixformat = pf) := by
    rcases hpf with rfl | rfl <;> simp [hb]
  unfold sensor_set_pixformat
  rw [if_neg hne, if_pos ⟨hb, hpf, h2, h1⟩]

/-- Witness for C5: a 20 x 40 BAYER window with capacity 1000. -/
theorem set_pixformat_keeps_degraded_bayer_witness :
    sensor_set_pixformat envIdem .rgb565 ctxBayerTight = ⟨0, ctxBayerTight, false⟩ :=
  set_pixformat_keeps_degraded_bayer envIdem .rgb565 ctxBayerTight rfl (Or.inl rfl)
    (by decide) (by decide)

/-- C8 counterexample: in a state where the active format is YUV422 but
the transpose flag is already set, requesting transpose returns success
(0), not the pixel-format-unsupported error the claim requires for every
such state. -/
theorem set_transpose_already_set_not_rejected :
    (sensor_set_transpose true ctxYuvTransposed).ret = 0 ∧
    (sensor_set_transpose true ctxYuvTransposed).ret ≠ SENSOR_ERROR_PIXFORMAT_UNSUPPORTED := by
  decide

/-- C8 as amended: when the requested transpose value differs from the
current flag and the active format is YUV422 or JPEG, the call returns
the pixel-format-unsupported error and changes nothing (a request equal
to the current flag instead returns success and changes nothing). -/
theorem set_transpose_rejected_on_packed_compressed (enable : Bool) (c : SensorCtx)
    (hne : c.sensor.transpose ≠ enable)
    (hpf : c.sensor.pixformat = .yuv422 ∨ c.sensor.pixformat = .jpeg) :
    sensor_set_transpose enable c = ⟨SENSOR_ERROR_PIXFORMAT_UNSUPPORTED, c, false⟩ := by
  unfold sensor_set_transpose
  rw [if_neg hne, if_pos hpf]

/-- Witness for amended C8: enabling transpose from a clear flag under
YUV422. -/
theorem set_transpose_rejected_witness :
    sensor_set_transpose true ctxYuv = ⟨SENSOR_ERROR_PIXFORMAT_UNSUPPORTED, ctxYuv, false⟩ :=
  set_transpose_rejected_on_packed_compressed true ctxYuv (by decide) (Or.inl rfl)

/-- C9: a windowing request that differs from the current rectangle while
the active format is JPEG returns the pixel-format-unsupported error and
leaves the sensor state and geometry untouched. -/
theorem set_windowing_rejected_on_jpeg (env : Env) (x y w h : ℤ) (c : SensorCtx)
    (hne : ¬(c.fb.x = x ∧ c.fb.y = y ∧ c.fb.u = w ∧ c.fb.v = h))
    (hpf : c.sensor.pixformat = .jpeg) :
    sensor_set_windowing env x y w h c = ⟨SENSOR_ERROR_PIXFORMAT_UNSUPPORTED, c, false⟩ := by
  unfold sensor_set_windowing
  rw [if_neg hne, if_pos hpf]

/-- Witness for C9: a 100 x 100 window request at (2, 2) in the JPEG
state. -/
theorem set_windowing_rejected_witness :
    sensor_set_windowing envIdem 2 2 100 100 ctxJpeg =
      ⟨SENSOR_ERROR_PIXFORMAT_UNSUPPORTED, ctxJpeg, false⟩ :=
  set_windowing_rejected_on_jpeg envIdem 2 2 100 100 ctxJpeg (by decide) rfl

/-- C3: the software frame-rate throttle follows the additive-baseline
rule.  At the first scanline of a frame (`first_line` clear): a frame
with no valid baseline (the very first) is accepted and seeds the
baseline from the current time; with a valid baseline and elapsed time
(in the code's wrapping `uint32` sense) below the interval the frame is
marked dropped and the baseline is unchanged; otherwise the frame is
accepted and the baseline advances by exactly one interval, not to the
current time.  On interval 100 (10 fps) and frames at times
{0, 40, 110, 150, 260}, the frames at 0, 110 and 260 are accepted with
the baseline becoming 0, then 100, then 200, and the frames at 40 and
150 are dropped with the baseline untouched. -/
theorem throttle_additive_baseline :
    (∀ (s : Sensor) (t : ℤ), s.first_line = false → s.last_frame_ms_valid = false →
      sensor_throttle_framerate t s =
        { s with first_line := true, last_frame_ms := t, last_frame_ms_valid := true }) ∧
    (∀ (s : Sensor) (t : ℤ), s.first_line = false → s.last_frame_ms_valid = true →
      (t - s.last_frame_ms) % two32 < frameIntervalMs s →
      sensor_throttle_framerate t s = { s with first_line := true, drop_frame := true }) ∧
    (∀ (s : Sensor) (t : ℤ), s.first_line = false → s.last_frame_ms_valid = true →
      ¬((t - s.last_frame_ms) % two32 < frameIntervalMs s) →
      sensor_throttle_framerate t s =
        { s with first_line := true,
                 last_frame_ms := (s.last_frame_ms + frameIntervalMs s) % two32 }) ∧
    throttleTrace sensorThrottle [0, 40, 110, 150, 260] =
      [(false, 0), (true, 0), (false, 100), (true, 100), (false, 200)] := by
  refine ⟨?_, ?_, ?_, by decide⟩
  · intro s t h1 h2
    simp [sensor_throttle_framerate, h1, h2]
  · intro s t h1 h2 h3
    simp [sensor_throttle_framerate, h1, h2, h3]
  · intro s t h1 h2 h3
    simp [sensor_throttle_framerate, h1, h2, h3]

/-- Witness for C3: the seed, drop and advance transitions at concrete
times 0, 40 and 110 on the 10 fps state. -/
theorem throttle_additive_baseline_witness :
    sensor_throttle_framerate 0 sensorThrottle =
      { sensorThrottle with first_line := true, last_frame_ms := 0,
                            last_frame_ms_valid := true } ∧
    sensor_throttle_framerate 40 sensorThrottleValid =
      { sensorThrottleValid with first_line := true, drop_frame := true } ∧
    sensor_throttle_framerate 110 sensorThrottleValid =
      { sensorThrottleValid with
        first_line := true,
        last_frame_ms :=
          (sensorThrottleValid.last_frame_ms + frameIntervalMs sensorThrottleValid) % two32 } :=
  ⟨throttle_additive_baseline.1 sensorThrottle 0 rfl rfl,
   throttle_additive_baseline.2.1 sensorThrottleValid 40 rfl rfl (by decide),
   throttle_additive_baseline.2.2.1 sensorThrottleValid 110 rfl rfl (by decide)⟩

/-- C6: every capability-gated setter whose slot is absent returns the
control-unsupported error, invokes no delegate, and mutates no state,
provided its preceding validity checks pass (a value-change check for
gain ceiling, special effect, mirror, flip, pixel format and frame size,
and the degraded-format and format-conflict checks for pixel format). -/
theorem capability_absent_unsupported :
    (∀ (lvl : ℤ) (c : SensorCtx), c.sensor.caps.set_contrast = none →
      sensor_set_contrast lvl c = ⟨SENSOR_ERROR_CTL_UNSUPPORTED, c, false⟩) ∧
    (∀ (lvl : ℤ) (c : SensorCtx), c.sensor.caps.set_brightness = none →
      sensor_set_brightness lvl c = ⟨SENSOR_ERROR_CTL_UNSUPPORTED, c, false⟩) ∧
    (∀ (lvl : ℤ) (c : SensorCtx), c.sensor.caps.set_saturation = none →
      sensor_set_saturation lvl c = ⟨SENSOR_ERROR_CTL_UNSUPPORTED, c, false⟩) ∧
    (∀ (g : ℤ) (c : SensorCtx), c.sensor.gainceiling ≠ g →
      c.sensor.caps.set_gainceiling = none →
      sensor_set_gainceiling g c = ⟨SENSOR_ERROR_CTL_UNSUPPORTED, c, false⟩) ∧
    (∀ (qs : ℤ) (c : SensorCtx), c.sensor.caps.set_quality = none →
      sensor_set_quality qs c = ⟨SENSOR_ERROR_CTL_UNSUPPORTED, c, false⟩) ∧
    (∀ (en : ℤ) (c : SensorCtx), c.sensor.caps.set_colorbar = none →
      sensor_set_colorbar en c = ⟨SENSOR_ERROR_CTL_UNSUPPORTED, c, false⟩) ∧
    (∀ (en : ℤ) (g gc : Frac) (c : SensorCtx), c.sensor.caps.set_auto_gain = none →
      sensor_set_auto_gain en g gc c = ⟨SENSOR_ERROR_CTL_UNSUPPORTED, c, false⟩) ∧
    (∀ (en us : ℤ) (c : SensorCtx), c.sensor.caps.set_auto_exposure = none →
      sensor_set_auto_exposure en us c = ⟨SENSOR_ERROR_CTL_UNSUPPORTED, c, false⟩) ∧
    (∀ (en : ℤ) (r g b : Frac) (c : SensorCtx), c.sensor.caps.set_auto_whitebal = none →
      sensor_set_auto_whitebal en r g b c = ⟨SENSOR_ERROR_CTL_UNSUPPORTED, c, false⟩) ∧
    (∀ (en : ℤ) (regs : List ℤ) (c : SensorCtx), c.sensor.caps.set_auto_blc = none →
      sensor_set_auto_blc en regs c = ⟨SENSOR_ERROR_CTL_UNSUPPORTED, c, false⟩) ∧
    (∀ (en radi coef : ℤ) (c : SensorCtx), c.sensor.caps.set_lens_correction = none →
      sensor_set_lens_correction en radi coef c = ⟨SENSOR_ERROR_CTL_UNSUPPORTED, c, false⟩) ∧
    (∀ (sde : ℤ) (c : SensorCtx), c.sensor.sde ≠ sde →
      c.sensor.caps.set_special_effect = none →
      sensor_set_special_effect sde c = ⟨SENSOR_ERROR_CTL_UNSUPPORTED, c, false⟩) ∧
    (∀ (en : ℤ) (c : SensorCtx), c.sensor.hmirror ≠ boolOfInt en →
      c.sensor.caps.set_hmirror = none →
      sensor_set_hmirror en c = ⟨SENSOR_ERROR_CTL_UNSUPPORTED, c, false⟩) ∧
    (∀ (en : ℤ) (c : SensorCtx), c.sensor.vflip ≠ boolOfInt en →
      c.sensor.caps.set_vflip = none →
      sensor_set_vflip en c = ⟨SENSOR_ERROR_CTL_UNSUPPORTED, c, false⟩) ∧
    (∀ (reg : ℤ) (c : SensorCtx), c.sensor.caps.read_reg = none →
      sensor_read_reg reg c = ⟨SENSOR_ERROR_CTL_UNSUPPORTED, c, false⟩) ∧
    (∀ (reg dat : ℤ) (c : SensorCtx), c.sensor.caps.write_reg = none →
      sensor_write_reg reg dat c = ⟨SENSOR_ERROR_CTL_UNSUPPORTED, c, false⟩) ∧
    (∀ (req : ℤ) (c : SensorCtx), c.sensor.caps.ioctl = none →
      sensor_ioctl req c = ⟨SENSOR_ERROR_CTL_UNSUPPORTED, c, false⟩) ∧
    (∀ (env : Env) (pf : Pixformat) (c : SensorCtx), c.sensor.pixformat ≠ pf →
      ¬(c.sensor.pixformat = .bayer ∧ (pf = .rgb565 ∨ pf = .yuv422) ∧
        (c.fb.u * c.fb.v * 2) % two32 > env.size ∧
        (c.fb.u * c.fb.v * 1) % two32 ≤ env.size) →
      ¬((pf = .yuv422 ∧ (c.sensor.transpose = true ∨ c.sensor.auto_rotation = true)) ∨
        (pf = .jpeg ∧ (sensor_get_cropped c = true ∨
          c.sensor.transpose = true ∨ c.sensor.auto_rotation = true))) →
      c.sensor.caps.set_pixformat = none →
      sensor_set_pixformat env pf c = ⟨SENSOR_ERROR_CTL_UNSUPPORTED, c, false⟩) ∧
    (∀ (env : Env) (fs : ℕ) (c : SensorCtx), c.sensor.framesize ≠ fs →
      c.sensor.caps.set_framesize = none →
      sensor_set_framesize env fs c = ⟨SENSOR_ERROR_CTL_UNSUPPORTED, c, false⟩) := by
  refine ⟨?_, ?_, ?_, ?_, ?_, ?_, ?_, ?_, ?_, ?_, ?_, ?_, ?_, ?_, ?_, ?_, ?_, ?_, ?_⟩
  · intro lvl c h; simp [sensor_set_contrast, h]
  · intro lvl c h; simp [sensor_set_brightness, h]
  · intro lvl c h; simp [sensor_set_saturation, h]
  · intro g c hne h; simp [sensor_set_gainceiling, hne, h]
  · intro qs c h; simp [sensor_set_quality, h]
  · intro en c h; simp [sensor_set_colorbar, h]
  · intro en g gc c h; simp [sensor_set_auto_gain, h]
  · intro en us c h; simp [sensor_set_auto_exposure, h]
  · intro en r g b c h; simp [sensor_set_auto_whitebal, h]
  · intro en regs c h; simp [sensor_set_auto_blc, h]
  · intro en radi coef c h; simp [sensor_set_lens_correction, h]
  · intro sde c hne h; simp [sensor_set_special_effect, hne, h]
  · intro en c hne h; simp [sensor_set_hmirror, hne, h]
  · intro en c hne h; simp [sensor_set_vflip, hne, h]
  · intro reg c h; simp [sensor_read_reg, h]
  · intro reg dat c h; simp [sensor_write_reg, h]
  · intro req c h; simp [sensor_ioctl, h]
  · intro env pf c h1 h2 h3 h4
    unfold sensor_set_pixformat
    rw [if_neg h1, if_neg h2, if_neg h3, h4]
  · intro env fs c hne h; simp [sensor_set_framesize, hne, h]

/-- Witness for C6: every modeled capability-gated setter invoked on the
baseline state (all slots absent) with arguments passing its preceding
checks. -/
theorem capability_absent_unsupported_witness :
    sensor_set_contrast 5 ctxBase = ⟨SENSOR_ERROR_CTL_UNSUPPORTED, ctxBase, false⟩ ∧
    sensor_set_brightness 5 ctxBase = ⟨SENSOR_ERROR_CTL_UNSUPPORTED, ctxBase, false⟩ ∧
    sensor_set_saturation 5 ctxBase = ⟨SENSOR_ERROR_CTL_UNSUPPORTED, ctxBase, false⟩ ∧
    sensor_set_gainceiling 2 ctxBase = ⟨SENSOR_ERROR_CTL_UNSUPPORTED, ctxBase, false⟩ ∧
    sensor_set_quality 50 ctxBase = ⟨SENSOR_ERROR_CTL_UNSUPPORTED, ctxBase, false⟩ ∧
    sensor_set_colorbar 1 ctxBase = ⟨SENSOR_ERROR_CTL_UNSUPPORTED, ctxBase, false⟩ ∧
    sensor_set_auto_gain 1 ⟨1, 1⟩ ⟨1, 1⟩ ctxBase =
      ⟨SENSOR_ERROR_CTL_UNSUPPORTED, ctxBase, false⟩ ∧
    sensor_set_auto_exposure 1 1000 ctxBase = ⟨SENSOR_ERROR_CTL_UNSUPPORTED, ctxBase, false⟩ ∧
    sensor_set_auto_whitebal 1 ⟨1, 1⟩ ⟨1, 1⟩ ⟨1, 1⟩ ctxBase =
      ⟨SENSOR_ERROR_CTL_UNSUPPORTED, ctxBase, false⟩ ∧
    sensor_set_auto_blc 1 [] ctxBase = ⟨SENSOR_ERROR_CTL_UNSUPPORTED, ctxBase, false⟩ ∧
    sensor_set_lens_correction 1 2 3 ctxBase = ⟨SENSOR_ERROR_CTL_UNSUPPORTED, ctxBase, false⟩ ∧
    sensor_set_special_effect 1 ctxBase = ⟨SENSOR_ERROR_CTL_UNSUPPORTED, ctxBase, false⟩ ∧
    sensor_set_hmirror 1 ctxBase = ⟨SENSOR_ERROR_CTL_UNSUPPORTED, ctxBase, false⟩ ∧
    sensor_set_vflip 1 ctxBase = ⟨SENSOR_ERROR_CTL_UNSUPPORTED, ctxBase, false⟩ ∧
    sensor_read_reg 18 ctxBase = ⟨SENSOR_ERROR_CTL_UNSUPPORTED, ctxBase, false⟩ ∧
    sensor_write_reg 18 7 ctxBase = ⟨SENSOR_ERROR_CTL_UNSUPPORTED, ctxBase, false⟩ ∧
    sensor_ioctl 3 ctxBase = ⟨SENSOR_ERROR_CTL_UNSUPPORTED, ctxBase, false⟩ ∧
    sensor_set_pixformat envIdem .rgb565 ctxBase =
      ⟨SENSOR_ERROR_CTL_UNSUPPORTED, ctxBase, false⟩ ∧
    sensor_set_framesize envIdem 11 ctxBase = ⟨SENSOR_ERROR_CTL_UNSUPPORTED, ctxBase, false⟩ := by
  obtain ⟨hcon, hbri, hsat, hgain, hqual, hcb, hag, hae, hawb, hblc, hlens, hsde,
    hhm, hvf, hrr, hwr, hio, hpf, hfs⟩ := capability_absent_unsupported
  exact ⟨hcon 5 ctxBase rfl, hbri 5 ctxBase rfl, hsat 5 ctxBase rfl,
    hgain 2 ctxBase (by decide) rfl, hqual 50 ctxBase rfl, hcb 1 ctxBase rfl,
    hag 1 ⟨1, 1⟩ ⟨1, 1⟩ ctxBase rfl, hae 1 1000 ctxBase rfl,
    hawb 1 ⟨1, 1⟩ ⟨1, 1⟩ ⟨1, 1⟩ ctxBase rfl, hblc 1 [] ctxBase rfl,
    hlens 1 2 3 ctxBase rfl, hsde 1 ctxBase (by decide) rfl,
    hhm 1 ctxBase (by decide) rfl, hvf 1 ctxBase (by decide) rfl,
    hrr 18 ctxBase rfl, hwr 18 7 ctxBase rfl, hio 3 ctxBase rfl,
    hpf envIdem .rgb565 ctxBase (by decide) (by decide) (by decide) rfl,
    hfs envIdem 11 ctxBase (by decide) rfl⟩

/-- C10: `sensor_copy_line` is total and never signals failure: it
returns 0 for every active pixel format and both transpose settings, and
for formats its switch does not recognize it performs no copy at all. -/
theorem copy_line_total_returns_zero (env : Env) (c : SensorCtx) :
    (sensor_copy_line env c).1 = 0 ∧
    ((c.sensor.pixformat = .invalid ∨ c.sensor.pixformat = .binary ∨
      c.sensor.pixformat = .jpeg) →
      (sensor_copy_line env c).2 = .nothing) := by
  constructor
  · cases hp : c.sensor.pixformat <;>
      simp only [sensor_copy_line, hp] <;> split_ifs <;> rfl
  · intro h
    rcases h with h | h | h <;> simp [sensor_copy_line, h]

/-- Witness for C10 at the unrecognized (JPEG) format. -/
theorem copy_line_total_returns_zero_witness :
    (sensor_copy_line envIdem ctxJpeg).1 = 0 ∧
    (sensor_copy_line envIdem ctxJpeg).2 = .nothing :=
  ⟨(copy_line_total_returns_zero envIdem ctxJpeg).1,
   (copy_line_total_returns_zero envIdem ctxJpeg).2 (Or.inr (Or.inr rfl))⟩

/-- With an even width subtrahend, an odd window width stays odd, so the
crop loop guard never clears: the loop cannot exit at any fuel. -/
theorem cropLoop_stuck_odd (size bpp v_sub : ℤ) :
    ∀ (n : ℕ) (u v : ℤ), u % 2 = 1 → cropLoop size bpp 2 v_sub n u v = none := by
  intro n
  induction n with
  | zero =>
    intro u v h
    have hg : cropGuard size bpp u v := Or.inr (Or.inl (by omega))
    simp [cropLoop, hg]
  | succ n ih =>
    intro n_1 v h
    have hg : cropGuard size bpp n_1 v := Or.inr (Or.inl (by omega))
    have h2 : (n_1 - 2) % 2 = 1 := by omega
    simp [cropLoop, hg, ih (n_1 - 2) (v - v_sub) h2]

/-- C1 (code bug): on the 199 x 100 GRAYSCALE window with capacity 100
the crop `while` loop never terminates, so the function cannot deliver
the even-dimensioned capacity-fitting window the spec promises for every
starting window.  The aspect-ratio search stops at its very first step
(error 1/100 is within the 0.01 threshold, in `float` exactly as in
exact arithmetic), selecting `u_sub = round(1.99) = 2` and `v_sub = 1`;
width 199 then stays odd forever under steps of 2, and the `u % 2` guard
keeps the loop running at every fuel bound. -/
theorem auto_crop_nonterminating_odd_window :
    ∀ fuel : ℕ, sensor_auto_crop_framebuffer envOdd fuel ctxOdd = none := by
  intro fuel
  have e1 : sensor_auto_crop_framebuffer envOdd fuel ctxOdd =
      autoCropShrink envOdd fuel ctxOdd 1 := rfl
  have e2 : autoCropShrink envOdd fuel ctxOdd 1 =
      (match cropLoop 100 1 2 1 fuel 199 100 with
       | none => none
       | some (u, v) =>
         some (0, (sensor_set_framebuffers envOdd (-1)
           ⟨ctxOdd.sensor, cropCenter ctxOdd.fb u v⟩).ctx)) := rfl
  rw [e1, e2, cropLoop_stuck_odd 100 1 1 fuel 199 100 (by decide)]

/-- A crop loop that exits does so with its guard false: the window fits
capacity and both dimensions are even. -/
theorem cropLoop_exit_guard (size bpp us vs : ℤ) :
    ∀ (n : ℕ) (u v u0 v0 : ℤ), cropLoop size bpp us vs n u v = some (u0, v0) →
      ¬cropGuard size bpp u0 v0 := by
  intro n
  induction n with
  | zero =>
    intro u v u0 v0 h
    by_cases hg : cropGuard size bpp u v
    · simp [cropLoop, hg] at h
    · simp [cropLoop, hg] at h
      obtain ⟨rfl, rfl⟩ := h
      exact hg
  | succ n ih =>
    intro u v u0 v0 h
    by_cases hg : cropGuard size bpp u v
    · simp only [cropLoop, if_pos hg] at h
      exact ih _ _ _ _ h
    · simp [cropLoop, hg] at h
      obtain ⟨rfl, rfl⟩ := h
      exact hg

/-- `sensor_set_framebuffers` only recomputes `frame_size`: the sensor
state and the window geometry come through untouched. -/
theorem set_framebuffers_ctx (env : Env) (n : ℤ) (c : SensorCtx) :
    (sensor_set_framebuffers env n c).ctx.sensor = c.sensor ∧
    (sensor_set_framebuffers env n c).ctx.fb.u = c.fb.u ∧
    (sensor_set_framebuffers env n c).ctx.fb.v = c.fb.v := by
  unfold sensor_set_framebuffers
  split_ifs <;> simp

/-- `cropCenter` installs exactly the loop's exit width. -/
theorem cropCenter_u (fb : FrameBuffer) (u v : ℤ) : (cropCenter fb u v).u = u := by
  simp only [cropCenter]
  split_ifs <;> rfl

/-- `cropCenter` installs exactly the loop's exit height. -/
theorem cropCenter_v (fb : FrameBuffer) (u v : ℤ) : (cropCenter fb u v).v = v := by
  simp only [cropCenter]
  split_ifs <;> rfl

/-- Behavior of `sensor_set_pixformat` when the target is BAYER and the
current format is a 2-byte color format: the three leading checks all
fall through, leaving only the capability dispatch. -/
theorem set_pixformat_bayer_eval (env : Env) (c : SensorCtx)
    (h : c.sensor.pixformat = .rgb565 ∨ c.sensor.pixformat = .yuv422) :
    sensor_set_pixformat env .bayer c =
      match c.sensor.caps.set_pixformat with
      | none => ⟨SENSOR_ERROR_CTL_UNSUPPORTED, c, false⟩
      | some rc =>
        if rc ≠ 0 then ⟨SENSOR_ERROR_CTL_FAILED, c, true⟩
        else ⟨0, (sensor_set_framebuffers env (-1)
          ⟨{ c.sensor with pixformat := .bayer },
           { c.fb with pixfmt := .invalid }⟩).ctx, true⟩ := by
  rcases h with h | h <;> simp [sensor_set_pixformat, h]

/-- When the BAYER downgrade cannot commit (slot absent or delegate
failing), the state is left exactly as it was. -/
theorem set_pixformat_bayer_noncommit (env : Env) (c : SensorCtx)
    (h : c.sensor.pixformat = .rgb565 ∨ c.sensor.pixformat = .yuv422)
    (hnc : c.sensor.caps.set_pixformat = none ∨
           ∃ rc, c.sensor.caps.set_pixformat = some rc ∧ rc ≠ 0) :
    (sensor_set_pixformat env .bayer c).ctx = c := by
  rw [set_pixformat_bayer_eval env c h]
  rcases hnc with hn | ⟨rc, hrc, hne⟩
  · rw [hn]
  · rw [hrc]
    simp [hne]

/-- When the BAYER downgrade commits, the resulting state is the
committed format with the geometry passed through `sensor_set_framebuffers`. -/
theorem set_pixformat_bayer_commit (env : Env) (c : SensorCtx)
    (h : c.sensor.pixformat = .rgb565 ∨ c.sensor.pixformat = .yuv422)
    (hc : c.sensor.caps.set_pixformat = some 0) :
    (sensor_set_pixformat env .bayer c).ctx =
      (sensor_set_framebuffers env (-1)
        ⟨{ c.sensor with pixformat := .bayer },
         { c.fb with pixfmt := .invalid }⟩).ctx := by
  rw [set_pixformat_bayer_eval env c h, hc]
  simp

/-- A shrink stage that returns leaves status 0, the sensor state
untouched, and a window with the loop guard cleared. -/
theorem autoCropShrink_some (env : Env) (f : ℕ) (c : SensorCtx) (bpp r : ℤ)
    (c1 : SensorCtx) (h : autoCropShrink env f c bpp = some (r, c1)) :
    r = 0 ∧ c1.sensor = c.sensor ∧ ¬cropGuard env.size bpp c1.fb.u c1.fb.v := by
  unfold autoCropShrink at h
  cases hcl : cropLoop env.size bpp (cropSubs c.fb.u c.fb.v).1 (cropSubs c.fb.u c.fb.v).2
      f c.fb.u c.fb.v with
  | none =>
    rw [hcl] at h
    simp at h
  | some uv =>
    obtain ⟨u, v⟩ := uv
    rw [hcl] at h
    simp only [Option.some.injEq, Prod.mk.injEq] at h
    obtain ⟨hr, hc1⟩ := h
    refine ⟨hr.symm, ?_, ?_⟩
    · rw [← hc1]
      exact (set_framebuffers_ctx env (-1) _).1
    · have hu : c1.fb.u = u := by
        rw [← hc1]
        have := (set_framebuffers_ctx env (-1)
          ⟨c.sensor, cropCenter c.fb u v⟩).2.1
        rw [this]
        exact cropCenter_u c.fb u v
      have hv : c1.fb.v = v := by
        rw [← hc1]
        have := (set_framebuffers_ctx env (-1)
          ⟨c.sensor, cropCenter c.fb u v⟩).2.2
        rw [this]
        exact cropCenter_v c.fb u v
      rw [hu, hv]
      exact cropLoop_exit_guard env.size bpp _ _ f c.fb.u c.fb.v u v hcl

/-- Second-run no-op for a first run that went down the color branch
without committing the BAYER downgrade. -/
theorem auto_crop_idem_noncommit (env : Env) (f1 f2 : ℕ) (c : SensorCtx) (r : ℤ)
    (c1 : SensorCtx)
    (h0 : ¬sensor_get_dst_bpp c.sensor = 0)
    (h1 : ¬(c.fb.u * c.fb.v * sensor_get_dst_bpp c.sensor) % two32 ≤ env.size)
    (h2 : c.sensor.pixformat = .rgb565 ∨ c.sensor.pixformat = .yuv422)
    (hnc : c.sensor.caps.set_pixformat = none ∨
           ∃ rc, c.sensor.caps.set_pixformat = some rc ∧ rc ≠ 0)
    (h : autoCropBayer env f1 c = some (r, c1)) :
    sensor_auto_crop_framebuffer env f2 c1 = some (0, c1) := by
  have hst : (sensor_set_pixformat env .bayer c).ctx = c :=
    set_pixformat_bayer_noncommit env c h2 hnc
  unfold autoCropBayer at h
  by_cases h3 : (c.fb.u * c.fb.v) % two32 ≤ env.size
  · rw [if_pos h3] at h
    rw [Option.some.injEq, Prod.mk.injEq] at h
    obtain ⟨hr, hc1⟩ := h
    subst hr
    subst hc1
    unfold sensor_auto_crop_framebuffer
    rw [if_neg h0, if_neg h1, if_pos h2, hst]
    unfold autoCropBayer
    rw [if_pos h3]
  · rw [if_neg h3] at h
    obtain ⟨hr, hsen, hguard⟩ := autoCropShrink_some env f1 c 1 r c1 h
    subst hr
    have hg1 : ¬(c1.fb.u * c1.fb.v * 1) % two32 > env.size :=
      fun ha => hguard (Or.inl ha)
    have hfit1 : (c1.fb.u * c1.fb.v * 1) % two32 ≤ env.size := not_lt.mp hg1
    have h2b : c1.sensor.pixformat = .rgb565 ∨ c1.sensor.pixformat = .yuv422 := by
      rw [hsen]; exact h2
    have h0b : ¬sensor_get_dst_bpp c1.sensor = 0 := by
      rw [hsen]; exact h0
    unfold sensor_auto_crop_framebuffer
    rw [if_neg h0b]
    by_cases h1b : (c1.fb.u * c1.fb.v * sensor_get_dst_bpp c1.sensor) % two32 ≤ env.size
    · rw [if_pos h1b]
    · rw [if_neg h1b, if_pos h2b]
      have hst2 : (sensor_set_pixformat env .bayer c1).ctx = c1 := by
        refine set_pixformat_bayer_noncommit env c1 h2b ?_
        rw [hsen]
        exact hnc
      rw [hst2]
      unfold autoCropBayer
      have h3b : (c1.fb.u * c1.fb.v) % two32 ≤ env.size := by
        rwa [mul_one] at hfit1
      rw [if_pos h3b]

/-- C7: `sensor_auto_crop_framebuffer` is idempotent: whatever state a
terminating run leaves (any fuel, any starting geometry, pixel format
and capability table), an immediate second run returns success and
leaves the entire state — origin, active and backup width/height
included — exactly as the first run left it. -/
theorem auto_crop_idempotent (env : Env) (f1 f2 : ℕ) (c : SensorCtx) (r : ℤ)
    (c1 : SensorCtx)
    (h : sensor_auto_crop_framebuffer env f1 c = some (r, c1)) :
    sensor_auto_crop_framebuffer env f2 c1 = some (0, c1) := by
  unfold sensor_auto_crop_framebuffer at h
  by_cases h0 : sensor_get_dst_bpp c.sensor = 0
  · rw [if_pos h0] at h
    rw [Option.some.injEq, Prod.mk.injEq] at h
    obtain ⟨hr, hc1⟩ := h
    subst hr
    subst hc1
    unfold sensor_auto_crop_framebuffer
    rw [if_pos h0]
  · rw [if_neg h0] at h
    by_cases h1 : (c.fb.u * c.fb.v * sensor_get_dst_bpp c.sensor) % two32 ≤ env.size
    · rw [if_pos h1] at h
      rw [Option.some.injEq, Prod.mk.injEq] at h
      obtain ⟨hr, hc1⟩ := h
      subst hr
      subst hc1
      unfold sensor_auto_crop_framebuffer
      rw [if_neg h0, if_pos h1]
    · rw [if_neg h1] at h
      by_cases h2 : c.sensor.pixformat = .rgb565 ∨ c.sensor.pixformat = .yuv422
      · rw [if_pos h2] at h
        cases hcap : c.sensor.caps.set_pixformat with
        | none =>
          rw [set_pixformat_bayer_noncommit env c h2 (Or.inl hcap)] at h
          exact auto_crop_idem_noncommit env f1 f2 c r c1 h0 h1 h2 (Or.inl hcap) h
        | some rc =>
          by_cases hrc : rc = 0
          · subst hrc
            rw [set_pixformat_bayer_commit env c h2 hcap] at h
            set cc := (sensor_set_framebuffers env (-1)
              ⟨{ c.sensor with pixformat := .bayer },
               { c.fb with pixfmt := .invalid }⟩).ctx with hcc
            have hccs : cc.sensor = { c.sensor with pixformat := .bayer } := by
              rw [hcc]
              exact (set_framebuffers_ctx env (-1) _).1
            have hbppcc : sensor_get_dst_bpp cc.sensor = 1 := by
              rw [hccs]
              rfl
            unfold autoCropBayer at h
            by_cases h3 : (cc.fb.u * cc.fb.v) % two32 ≤ env.size
            · rw [if_pos h3] at h
              rw [Option.some.injEq, Prod.mk.injEq] at h
              obtain ⟨hr, hc1⟩ := h
              subst hr
              subst hc1
              have h0b : ¬sensor_get_dst_bpp cc.sensor = 0 := by
                rw [hbppcc]; decide
              have h1b : (cc.fb.u * cc.fb.v * sensor_get_dst_bpp cc.sensor) % two32 ≤
                  env.size := by
                rw [hbppcc, mul_one]
                exact h3
              unfold sensor_auto_crop_framebuffer
              rw [if_neg h0b, if_pos h1b]
            · rw [if_neg h3] at h
              obtain ⟨hr, hsen, hguard⟩ := autoCropShrink_some env f1 cc 1 r c1 h
              subst hr
              have hbpp1 : sensor_get_dst_bpp c1.sensor = 1 := by
                rw [hsen, hbppcc]
              have hg1 : ¬(c1.fb.u * c1.fb.v * 1) % two32 > env.size :=
                fun ha => hguard (Or.inl ha)
              have h0b : ¬sensor_get_dst_bpp c1.sensor = 0 := by
                rw [hbpp1]; decide
              have h1b : (c1.fb.u * c1.fb.v * sensor_get_dst_bpp c1.sensor) % two32 ≤
                  env.size := by
                rw [hbpp1]
                exact not_lt.mp hg1
              unfold sensor_auto_crop_framebuffer
              rw [if_neg h0b, if_pos h1b]
          · rw [set_pixformat_bayer_noncommit env c h2 (Or.inr ⟨rc, hcap, hrc⟩)] at h
            exact auto_crop_idem_noncommit env f1 f2 c r c1 h0 h1 h2
              (Or.inr ⟨rc, hcap, hrc⟩) h
      · rw [if_neg h2] at h
        obtain ⟨hr, hsen, hguard⟩ :=
          autoCropShrink_some env f1 c (sensor_get_dst_bpp c.sensor) r c1 h
        subst hr
        have hbppeq : sensor_get_dst_bpp c1.sensor = sensor_get_dst_bpp c.sensor := by
          rw [hsen]
        have hg1 : ¬(c1.fb.u * c1.fb.v * sensor_get_dst_bpp c.sensor) % two32 > env.size :=
          fun ha => hguard (Or.inl ha)
        have h0b : ¬sensor_get_dst_bpp c1.sensor = 0 := by
          rw [hbppeq]; exact h0
        have h1b : (c1.fb.u * c1.fb.v * sensor_get_dst_bpp c1.sensor) % two32 ≤
            env.size := by
          rw [hbppeq]
          exact not_lt.mp hg1
        unfold sensor_auto_crop_framebuffer
        rw [if_neg h0b, if_pos h1b]

/-- Witness for C7: the 40 x 30 RGB565 window at capacity 1000 crops to
32 x 24 at (4, 2) on the first run, and the second run reproduces that
state exactly. -/
theorem auto_crop_idempotent_witness :
    sensor_auto_crop_framebuffer envIdem 10 ctxIdem = some (0, ctxIdemOut) ∧
    sensor_auto_crop_framebuffer envIdem 3 ctxIdemOut = some (0, ctxIdemOut) :=
  ⟨by decide, auto_crop_idempotent envIdem 10 3 ctxIdem 0 ctxIdemOut (by decide)⟩

end SensorUtils
